import Mathlib

/-!
Verification of the mediaserver main-controller request pipeline
(`pkg/web/web.go`): the read-through metadata caches, the authorization
evaluator (`checkAccess`), and the request dispatcher (`action`) with its
rendition cache-aside / generate-on-miss orchestration and storage-path
resolution.

The Go source is shallowly embedded: downstream gRPC services
(`DatabaseClient`, `ActionClient`) are an environment of pure functions
returning `Except`-style results; gRPC errors are modelled by `GErr`
(a status error carrying a code, or a non-status error, which is exactly
what `status.FromError` distinguishes); the HTTP handler is a pure
function from a request to a response together with a trace of the
downstream calls it performed.
-/

namespace Mediaserver

/-- gRPC status codes relevant to the pipeline (`codes.NotFound` is the only
code the source inspects; the others stand for every other code). -/
inductive GCode where
  | notFound
  | unavailable
  | internal
  | unknown
deriving DecidableEq, Repr

/-- An error as seen through `status.FromError`: either a gRPC status error
(`ok = true`, with its code) or a non-status error (`ok = false`), e.g.
`gcache.KeyNotFoundError` or a wrapped plain error.  `errors.Wrapf`
preserves status-ness (`status.FromError` unwraps), so wrapping is the
identity here. -/
inductive GErr where
  | status (code : GCode)
  | nonStatus (msg : String)
deriving DecidableEq, Repr

/-- `status.FromError(err)`: returns `(ok, code)`; a non-status error yields
`ok = false` with code `Unknown`. -/
def statusFromError : GErr → Bool × GCode
  | .status c => (true, c)
  | .nonStatus _ => (false, .unknown)

/-- `gcache.KeyNotFoundError`, the non-status error the cache loaders return
for an upstream `codes.NotFound` (web.go lines 70-72, 89-91). -/
def keyNotFoundErr : GErr := .nonStatus "ErrKeyNotFound"

/-- A storage target (`mediaserverproto.Storage`): only its `filebase` is
used by the pipeline (web.go line 395). -/
structure StorageTarget where
  filebase : String
deriving DecidableEq, Repr

/-- A media item (`mediaserverproto.Item`): the fields the pipeline reads —
`GetPublic()`, `GetPublicActions()`, and `GetMetadata().GetType()`. -/
structure Item where
  publicFlag : Bool
  publicActions : List String
  mediaType : String
deriving DecidableEq, Repr

/-- A collection (`mediaserverproto.Collection`): the fields the pipeline
reads — `GetJwtkey()` and `GetStorage()` (a possibly-nil storage). -/
structure Collection where
  jwtkey : String
  storage : Option StorageTarget
deriving DecidableEq, Repr

/-- Rendition metadata (`mediaserverproto.Cache` flattened through
`GetMetadata()`): `GetPath()`, `GetMimeType()`, `GetStorage()`
(web.go lines 384-397). -/
structure Rendition where
  path : String
  mimeType : String
  storage : Option StorageTarget
deriving DecidableEq, Repr

/-- The downstream services the controller talks to, as pure functions:
`dbGetItem`/`dbGetCollection` are `DatabaseClient.GetItem`/`GetCollection`
(behind the read-through caches), `dbGetItemMetadata` is `GetItemMetadata`,
`dbGetCache` is the rendition-cache lookup `GetCache`, `actGetParams` is
`ActionClient.GetParams`, `actAction` is `ActionClient.Action` (whose gRPC
result may be nil, hence `Option`).  `verifyToken` is the token-verifier
collaborator; see its use in `checkAccess`. -/
structure Env where
  dbGetItem : String → String → Except GErr Item
  dbGetCollection : String → Except GErr Collection
  dbGetItemMetadata : String → String → Except GErr String
  dbGetCache : String → String → String → String → Except GErr Rendition
  actGetParams : String → String → Except GErr (List String)
  actAction : Item → String → String → Option StorageTarget → Except GErr (Option Rendition)
  verifyToken : String → String → List String → Except String String

/-- The item-cache read (`ctrl.getItem` through the gcache loader, web.go
lines 58-77, 136-146): an upstream `codes.NotFound` becomes
`gcache.KeyNotFoundError` (a non-status error); any other upstream result
passes through (wrapping preserves the status). -/
def loadItem (env : Env) (collection signature : String) : Except GErr Item :=
  match env.dbGetItem collection signature with
  | .ok it => .ok it
  | .error (.status .notFound) => .error keyNotFoundErr
  | .error e => .error e

/-- The collection-cache read (`ctrl.getCollection` through the gcache
loader, web.go lines 78-96, 148-158), with the same NotFound conversion. -/
def loadCollection (env : Env) (collection : String) : Except GErr Collection :=
  match env.dbGetCollection collection with
  | .ok c => .ok c
  | .error (.status .notFound) => .error keyNotFoundErr
  | .error e => .error e

/-- `strings.Trim(s, "/")`: drop leading and trailing `/` characters. -/
def trimSlashes (s : String) : String :=
  String.mk (((s.toList.dropWhile (· == '/')).reverse.dropWhile (· == '/')).reverse)

/-- The composed JWT subject
`strings.Trim(fmt.Sprintf("%s/%s/%s/%s", collection, signature, action, paramStr), "/")`
(web.go line 259). -/
def composedSubject (collection signature act paramStr : String) : String :=
  trimSlashes (collection ++ "/" ++ signature ++ "/" ++ act ++ "/" ++ paramStr)

/-- Split a character list at `/` separators. -/
def splitSlash : List Char → List (List Char)
  | [] => [[]]
  | c :: rest =>
    match splitSlash rest with
    | [] => if c = '/' then [[], []] else [[c]]
    | h :: t => if c = '/' then [] :: h :: t else (c :: h) :: t

/-- Join strings with `/` separators. -/
def joinSlash : List String → String
  | [] => ""
  | [s] => s
  | s :: rest => s ++ "/" ++ joinSlash rest

/-- Modelled from the spec: the Parameter Canonicalizer
(`actionCache.ActionParams.SetString`/`String` from the external
`mediaserveraction` module, whose source is not under `src/`).  Per spec
§4.3: the raw string is the slash-delimited `params` path segment,
interpreted positionally against the allow-list; unrecognized (excess)
segments are dropped, never an error; serialization is deterministic in the
allow-list's declared order (here: the positional order), so equivalent
inputs render byte-identically. -/
def canonicalParams (raw : String) (allowed : List String) : String :=
  let segs := ((splitSlash raw.toList).map String.mk).filter (fun s => s ≠ "")
  joinSlash (segs.take allowed.length)

/-- `isUrlRegexp = regexp.MustCompile("^[a-z]+://")` (web.go line 203):
the path starts with one or more lowercase ASCII letters followed by
`://`. -/
def isUrlMatch (s : String) : Bool :=
  let cs := s.toList
  let n := (cs.takeWhile (fun c => decide ('a' ≤ c) && decide (c ≤ 'z'))).length
  decide (0 < n) && decide ((cs.drop n).take 3 = [':', '/', '/'])

/-- The distinct deny outcomes of `checkAccess` (each `return errors...` in
web.go lines 207-265). -/
inductive DenyReason where
  | itemFetch (e : GErr)
  | paramsFetch (e : GErr)
  | noToken
  | collectionFetch (e : GErr)
  | noJwtKey
  | tokenInvalid (msg : String)
  | subjectMismatch (subject expected : String)
deriving DecidableEq, Repr

/-- One downstream invocation performed by the pipeline, recorded in order:
cache-layer reads, registry/param events, and the raw gRPC calls of the
dispatcher. `paramsBuilt` records an `ActionParams.SetString` (a params
object built from the raw segment and an allow-list). -/
inductive Call where
  | cacheLoadItem (c s : String)
  | cacheLoadCollection (c : String)
  | registryGetParams (t a : String)
  | paramsBuilt (raw : String) (allowed : List String)
  | dbGetItemMetadata (c s : String)
  | dbGetCache (c s a p : String)
  | dbGetCollection (c : String)
  | genAction (item : Item) (a p : String) (storage : Option StorageTarget)
deriving DecidableEq, Repr

/-- The token stage of `checkAccess` (web.go lines 229-264): require a
token, fetch the collection through its cache, require a signing key,
verify the token and bind the subject.  The JWT chain
(`jwt.ParseWithClaims` with the algorithm allow-list key function, the
`Valid` check and `GetSubject`, lines 240-258) is the external token
verifier collaborator, abstracted as `env.verifyToken token jwtKey algs`
returning the subject on success and a deny message on any of those
failures.  `t` is the trace accumulated so far. -/
def tokenStage (env : Env) (algs : List String)
    (collection signature act paramStr token : String) (t : List Call) :
    Except DenyReason Unit × List Call :=
  if token = "" then (.error .noToken, t)
  else
    match loadCollection env collection with
    | .error e => (.error (.collectionFetch e), t ++ [.cacheLoadCollection collection])
    | .ok coll =>
      let t2 := t ++ [Call.cacheLoadCollection collection]
      if coll.jwtkey = "" then (.error .noJwtKey, t2)
      else
        match env.verifyToken token coll.jwtkey algs with
        | .error msg => (.error (.tokenInvalid msg), t2)
        | .ok subject =>
          let expected := composedSubject collection signature act paramStr
          if subject ≠ expected then
            (.error (.subjectMismatch subject expected), t2)
          else (.ok (), t2)

/-- The authorization evaluator `checkAccess` (web.go lines 207-265):
item fetch, the public-item rule, the public-action rule (with allow-list
fetch and canonicalization), and otherwise the token stage.  Control falls
through to `tokenStage` when the public-action list is empty or contains no
match, exactly as the Go code falls through the `if` block. -/
def checkAccess (env : Env) (algs : List String)
    (collection signature act paramStr token : String) :
    Except DenyReason Unit × List Call :=
  match loadItem env collection signature with
  | .error e => (.error (.itemFetch e), [.cacheLoadItem collection signature])
  | .ok item =>
    -- public items are always allowed
    if item.publicFlag then (.ok (), [.cacheLoadItem collection signature])
    -- check whether it's a public action
    else if item.publicActions.length > 0 then
      match env.actGetParams item.mediaType act with
      | .error e =>
        (.error (.paramsFetch e),
         [.cacheLoadItem collection signature, .registryGetParams item.mediaType act])
      | .ok actionParams =>
        let fullAction := act ++ "/" ++ canonicalParams paramStr actionParams
        let t1 : List Call := [.cacheLoadItem collection signature,
                               .registryGetParams item.mediaType act,
                               .paramsBuilt paramStr actionParams]
        if fullAction ∈ item.publicActions then (.ok (), t1)
        else tokenStage env algs collection signature act paramStr token t1
    else
      tokenStage env algs collection signature act paramStr token
        [.cacheLoadItem collection signature]

/-- The response body: an error JSON object with a single `error` field
(`c.JSON(status, gin.H{"error": ...})`), the raw metadata document
(`c.Data(200, "application/json", ...)`), or a streamed file with its
`Content-Type` header (`c.Header(...)`; `c.FileFromFS(path, ...)`). -/
inductive HttpBody where
  | errorJson (msg : String)
  | jsonData (value : String)
  | file (contentType path : String)
deriving DecidableEq, Repr

/-- An HTTP response of the dispatcher. -/
structure HttpResponse where
  status : Nat
  body : HttpBody
deriving DecidableEq, Repr

/-- The status chosen when the dispatcher's item lookup fails (web.go lines
276-280): start from 500 and set 404 when `!ok || stat.Code() != NotFound`. -/
def itemErrHttpStatus (e : GErr) : Nat :=
  let s := statusFromError e
  if !s.1 || s.2 ≠ GCode.notFound then 404 else 500

/-- Resolve the final serving path and stream (web.go lines 384-398): a path
matching `isUrlRegexp` is served as-is; otherwise the rendition's storage
must be present and the path is `filebase ++ "/" ++ path`; a relative path
with nil storage is a 500. -/
def serveRendition (rend : Rendition) (collection signature act pstr : String) : HttpResponse :=
  if isUrlMatch rend.path then
    { status := 200, body := .file rend.mimeType rend.path }
  else
    match rend.storage with
    | none =>
      { status := 500,
        body := .errorJson ("no storage defined for " ++ collection ++ "/" ++ signature
          ++ "/" ++ act ++ "/" ++ pstr) }
    | some stor =>
      { status := 200, body := .file rend.mimeType (stor.filebase ++ "/" ++ rend.path) }

/-- The params step of the rendering stage (web.go lines 321-332): actions
`item` and `master` skip it (`params` stays the zero `ActionParams`, whose
canonical string is empty); otherwise fetch the allow-list for the item's
media type and build the params object from the raw segment. -/
def paramsStage (env : Env) (item : Item) (act paramStr : String) :
    Except GErr String × List Call :=
  if act = "item" ∨ act = "master" then (.ok "", [])
  else
    match env.actGetParams item.mediaType act with
    | .error e => (.error e, [.registryGetParams item.mediaType act])
    | .ok allowed =>
      (.ok (canonicalParams paramStr allowed),
       [.registryGetParams item.mediaType act, .paramsBuilt paramStr allowed])

/-- The rest of the rendering stage after the access check succeeded and
`action != "metadata"` (web.go lines 321-399): params step, cache-aside
lookup of the rendition (`GetCache`), on NotFound fetch the collection
directly and invoke the generation service, then resolve the path and
stream. -/
def renderStage (env : Env) (item : Item)
    (collection signature act paramStr : String) : HttpResponse × List Call :=
  match paramsStage env item act paramStr with
  | (.error _, tp) =>
    ({ status := 500,
       body := .errorJson ("cannot get params for " ++ item.mediaType ++ "::" ++ act) }, tp)
  | (.ok pstr, tp) =>
    let t1 := tp ++ [Call.dbGetCache collection signature act pstr]
    match env.dbGetCache collection signature act pstr with
    | .ok rend => (serveRendition rend collection signature act pstr, t1)
    | .error e =>
      let s := statusFromError e
      if !s.1 || s.2 ≠ GCode.notFound then
        ({ status := 500,
           body := .errorJson ("cannot get cache for " ++ collection ++ "/" ++ signature
             ++ "/" ++ act) }, t1)
      else
        match env.dbGetCollection collection with
        | .error _ =>
          ({ status := 500,
             body := .errorJson ("cannot get collection " ++ collection) },
           t1 ++ [.dbGetCollection collection])
        | .ok coll =>
          let t2 := t1 ++ [Call.dbGetCollection collection,
                           Call.genAction item act pstr coll.storage]
          -- cache not found, create it
          match env.actAction item act pstr coll.storage with
          | .error _ =>
            ({ status := 500,
               body := .errorJson ("cannot get cache for " ++ collection ++ "/" ++ signature
                 ++ "/" ++ act) }, t2)
          | .ok none =>
            ({ status := 500,
               body := .errorJson ("cannot get cache for " ++ collection ++ "/" ++ signature
                 ++ "/" ++ act ++ ": no cache") }, t2)
          | .ok (some rend) => (serveRendition rend collection signature act pstr, t2)

/-- The request dispatcher `action` (web.go lines 266-400): item lookup
(with the inverted status mapping of lines 276-280 on failure), access
check (any failure → 401), the `metadata` special case, then the rendering
stage. -/
def actionHandler (env : Env) (algs : List String)
    (collection signature act paramStr token : String) : HttpResponse × List Call :=
  match loadItem env collection signature with
  | .error e =>
    ({ status := itemErrHttpStatus e,
       body := .errorJson ("cannot get item " ++ collection ++ "/" ++ signature) },
     [.cacheLoadItem collection signature])
  | .ok item =>
    let acc := checkAccess env algs collection signature act paramStr token
    let t0 := Call.cacheLoadItem collection signature :: acc.2
    match acc.1 with
    | .error _ =>
      ({ status := 401,
         body := .errorJson ("access denied for " ++ collection ++ "/" ++ signature
           ++ "/" ++ act ++ "/" ++ paramStr) }, t0)
    | .ok () =>
      if act = "metadata" then
        let t1 := t0 ++ [Call.dbGetItemMetadata collection signature]
        match env.dbGetItemMetadata collection signature with
        | .error e =>
          let s := statusFromError e
          if !s.1 || s.2 ≠ GCode.notFound then
            ({ status := 500,
               body := .errorJson ("cannot get metadata for " ++ collection ++ "/" ++ signature) },
             t1)
          else
            ({ status := 404,
               body := .errorJson (collection ++ "/" ++ signature ++ " not found") }, t1)
        | .ok v => ({ status := 200, body := .jsonData v }, t1)
      else
        let r := renderStage env item collection signature act paramStr
        (r.1, t0 ++ r.2)

/-! ### The read-through metadata cache with negative entries

The loader functions (web.go lines 58-96) are in src/; the gcache store
itself is an external library.  Its store semantics are modelled from the
spec (§4.1): bounded LRU with per-entry TTL, where a loader signalling
`KeyNotFoundError` is cached as a negative entry with the same TTL, and any
other loader error is not cached.  Keys are strings; `now` is an abstract
clock value passed to each operation; eviction by size is irrelevant to the
claims and omitted (entries only expire). -/

/-- A cache store: key, entry (`some v` positive, `none` negative), expiry
instant. Newest entries first. -/
structure NegCache (α : Type) where
  entries : List (String × Option α × Nat)
deriving Repr

/-- Find the first unexpired entry for a key at time `now`. -/
def NegCache.lookup (st : NegCache α) (k : String) (now : Nat) : Option (Option α) :=
  match st.entries.find? (fun e => e.1 == k && decide (now < e.2.2)) with
  | some e => some e.2.1
  | none => none

/-- Modelled from the spec (§4.1) together with the loader from src (web.go
lines 58-77): one cache read.  A fresh entry is returned without calling
upstream (negative entries yield `KeyNotFoundError`); on a miss the
upstream loader runs once: a value or an upstream `codes.NotFound` is
stored with expiry `now + ttl` (the NotFound as a negative entry), any
other upstream error is returned uncached.  Result: the outcome, the new
store, and whether upstream was invoked. -/
def cacheGet (st : NegCache α) (upstream : String → Except GErr α)
    (k : String) (now ttl : Nat) : Except GErr α × NegCache α × Bool :=
  match st.lookup k now with
  | some (some v) => (.ok v, st, false)
  | some none => (.error keyNotFoundErr, st, false)
  | none =>
    match upstream k with
    | .ok v => (.ok v, ⟨(k, some v, now + ttl) :: st.entries⟩, true)
    | .error (.status .notFound) =>
      (.error keyNotFoundErr, ⟨(k, none, now + ttl) :: st.entries⟩, true)
    | .error e => (.error e, st, true)

/-! ### Call classifiers -/

/-- Calls that can occur inside the access evaluator. -/
def Call.isAccessStage : Call → Bool
  | .cacheLoadItem _ _ => true
  | .cacheLoadCollection _ => true
  | .registryGetParams _ _ => true
  | .paramsBuilt _ _ => true
  | _ => false

/-- A rendition-cache lookup (`dbClient.GetCache`). -/
def Call.isGetCache : Call → Bool
  | .dbGetCache _ _ _ _ => true
  | _ => false

/-- A generation-service invocation (`actionControllerClient.Action`). -/
def Call.isGenAction : Call → Bool
  | .genAction _ _ _ _ => true
  | _ => false

/-- A metadata-document fetch (`dbClient.GetItemMetadata`). -/
def Call.isMetadataFetch : Call → Bool
  | .dbGetItemMetadata _ _ => true
  | _ => false

/-- Parameter handling: an allow-list fetch or building a params object. -/
def Call.isParamsHandling : Call → Bool
  | .registryGetParams _ _ => true
  | .paramsBuilt _ _ => true
  | _ => false

/-- Every call that the access evaluator records is an access-stage call:
`checkAccess` never performs a rendition-cache lookup, a generation call or
a metadata-document fetch. -/
theorem tokenStage_trace_accessStage (env : Env) (algs : List String)
    (collection signature act paramStr token : String) (t : List Call)
    (h : t.all Call.isAccessStage = true) :
    ((tokenStage env algs collection signature act paramStr token t).2.all
      Call.isAccessStage) = true := by
  unfold tokenStage
  repeat'
    first
    | exact h
    | (simp only [List.all_append, h, Bool.true_and] ; rfl)
    | split
    | dsimp only []

theorem checkAccess_trace_accessStage (env : Env) (algs : List String)
    (collection signature act paramStr token : String) :
    ((checkAccess env algs collection signature act paramStr token).2.all
      Call.isAccessStage) = true := by
  unfold checkAccess
  repeat'
    first
    | rfl
    | (apply tokenStage_trace_accessStage ; rfl)
    | split
    | dsimp only []

/-- The requirement that the evaluator falls past the public-item and
public-action rules into the token stage: the item is not public, and the
public-action rule does not decide (empty list, or the allow-list was
fetched and the full action does not match). -/
def fallsThroughToToken (env : Env) (item : Item) (act paramStr : String) : Prop :=
  item.publicFlag = false ∧
  (item.publicActions = [] ∨
    ∃ allowed, env.actGetParams item.mediaType act = .ok allowed ∧
      (act ++ "/" ++ canonicalParams paramStr allowed) ∉ item.publicActions)

/-! ### Concrete instances used by witnesses and counterexamples -/

/-- A restricted item with no public actions. -/
def restrictedItem : Item :=
  { publicFlag := false, publicActions := [], mediaType := "image" }

/-- A restricted item that pre-authorizes `thumb/200x200` anonymously. -/
def thumbItem : Item :=
  { publicFlag := false, publicActions := ["thumb/200x200"], mediaType := "image" }

/-- A collection with a signing key and a storage target. -/
def demoColl : Collection :=
  { jwtkey := "secret", storage := some { filebase := "/data" } }

/-- A cached rendition with a storage-relative path. -/
def rendRel : Rendition :=
  { path := "p.jpg", mimeType := "image/jpeg", storage := some { filebase := "/data" } }

/-- A cached rendition with an absolute locator path. -/
def rendAbs : Rendition :=
  { path := "https://cdn/x.jpg", mimeType := "image/jpeg", storage := none }

/-- A benign environment every concrete scenario starts from. -/
def baseEnv : Env :=
  { dbGetItem := fun _ _ => .ok restrictedItem,
    dbGetCollection := fun _ => .ok demoColl,
    dbGetItemMetadata := fun _ _ => .ok "doc",
    dbGetCache := fun _ _ _ _ => .ok rendRel,
    actGetParams := fun _ _ => .ok ["size"],
    actAction := fun _ _ _ st =>
      .ok (some { path := "gen.jpg", mimeType := "image/jpeg", storage := st }),
    verifyToken := fun _ _ _ => .error "signature invalid" }

/-- Item lookup fails with a non-NotFound backend error (`Unavailable`). -/
def envItemUnavailable : Env :=
  { baseEnv with dbGetItem := fun _ _ => .error (.status .unavailable) }

/-- Item lookup fails with the upstream NotFound signal. -/
def envItemNotFound : Env :=
  { baseEnv with dbGetItem := fun _ _ => .error (.status .notFound) }

/-- The collection fetch inside the access evaluator fails with a
non-NotFound backend error. -/
def envCollUnavailable : Env :=
  { baseEnv with dbGetCollection := fun _ => .error (.status .unavailable) }

/-- A token verifier accepting exactly the subject `coll/sig/thumb`. -/
def envSubjectToken : Env :=
  { baseEnv with verifyToken := fun _ _ _ => .ok "coll/sig/thumb" }

/-- An item whose public-action list pre-authorizes the bare `item`
action. -/
def bareItemActionItem : Item :=
  { publicFlag := false, publicActions := ["item/"], mediaType := "image" }

/-- Environment serving `bareItemActionItem`, so the evaluator fetches the
allow-list even for action `item`. -/
def envPublicItemAction : Env :=
  { baseEnv with dbGetItem := fun _ _ => .ok bareItemActionItem }

/-- The thumb scenario: restricted item with public action
`thumb/200x200`. -/
def envThumb : Env :=
  { baseEnv with dbGetItem := fun _ _ => .ok thumbItem }

/-- A public item (served without any token). -/
def publicItem : Item :=
  { publicFlag := true, publicActions := [], mediaType := "image" }

/-- A public item with every downstream healthy. -/
def envPublic : Env :=
  { baseEnv with dbGetItem := fun _ _ => .ok publicItem }

/-- A public item whose rendition-cache lookup misses with NotFound, so the
generation service must produce the rendition. -/
def envGenMiss : Env :=
  { envPublic with dbGetCache := fun _ _ _ _ => .error (.status .notFound) }

/-- A public item whose cached rendition carries an absolute locator. -/
def envPublicAbs : Env :=
  { envPublic with dbGetCache := fun _ _ _ _ => .ok rendAbs }

/-! ### Helper lemmas about the token stage -/

/-- Once the token stage is reached with a verifying token, the decision is
exactly the subject comparison against the composed string. -/
theorem tokenStage_subject_binding (env : Env) (algs : List String)
    (collection signature act paramStr token : String) (t : List Call)
    (coll : Collection) (subject : String)
    (htok : token ≠ "")
    (hcoll : loadCollection env collection = .ok coll)
    (hkey : coll.jwtkey ≠ "")
    (hverify : env.verifyToken token coll.jwtkey algs = .ok subject) :
    ((tokenStage env algs collection signature act paramStr token t).1 = .ok ()
      ↔ subject = composedSubject collection signature act paramStr)
    ∧ (subject ≠ composedSubject collection signature act paramStr →
        (tokenStage env algs collection signature act paramStr token t).1 =
          .error (.subjectMismatch subject
            (composedSubject collection signature act paramStr))) := by
  unfold tokenStage
  rw [hcoll]
  simp only [htok, if_neg, ite_false, hkey, hverify]
  by_cases hs : subject = composedSubject collection signature act paramStr
  · simp [hs]
  · simp [hs]

/-- The token stage's decision does not depend on the accumulated trace. -/
theorem tokenStage_fst_trace_irrelevant (env : Env) (algs : List String)
    (collection signature act paramStr token : String) (t t' : List Call) :
    (tokenStage env algs collection signature act paramStr token t).1 =
      (tokenStage env algs collection signature act paramStr token t').1 := by
  unfold tokenStage
  repeat'
    first
    | rfl
    | split
    | dsimp only []

/-- Under `fallsThroughToToken`, `checkAccess` is the token stage. -/
theorem checkAccess_eq_tokenStage (env : Env) (algs : List String)
    (collection signature act paramStr token : String) (item : Item)
    (hload : loadItem env collection signature = .ok item)
    (hfall : fallsThroughToToken env item act paramStr) :
    (checkAccess env algs collection signature act paramStr token).1 =
      (tokenStage env algs collection signature act paramStr token
        (checkAccess env algs collection signature act paramStr token).2).1 := by
  obtain ⟨hpub, hrest⟩ := hfall
  unfold checkAccess
  rw [hload]
  rcases hrest with hemp | ⟨allowed, hgp, hnomem⟩
  · simp only [hpub, Bool.false_eq_true, if_false, hemp, List.length_nil, gt_iff_lt,
      lt_self_iff_false]
    exact tokenStage_fst_trace_irrelevant env algs collection signature act paramStr token _ _
  · by_cases hlen : item.publicActions.length > 0
    · simp only [hpub, Bool.false_eq_true, if_false, hlen, if_true, hgp]
      simp only [hnomem, if_false, ite_false]
      exact tokenStage_fst_trace_irrelevant env algs collection signature act paramStr token _ _
    · simp only [hpub, Bool.false_eq_true, if_false, hlen]
      exact tokenStage_fst_trace_irrelevant env algs collection signature act paramStr token _ _

/-! ### Claim theorems -/

/-- C7: for every request for an item whose public flag is true, the
authorization evaluator allows the request regardless of action, parameters
or token. -/
theorem C7_public_item_always_allowed (env : Env) (algs : List String)
    (collection signature act paramStr token : String) (item : Item)
    (hload : loadItem env collection signature = .ok item)
    (hpub : item.publicFlag = true) :
    (checkAccess env algs collection signature act paramStr token).1 = .ok () := by
  unfold checkAccess
  rw [hload]
  simp [hpub]

/-- Witness for C7 at a concrete public item and request. -/
theorem C7_public_item_always_allowed_witness :
    (checkAccess
      { dbGetItem := fun _ _ => .ok { publicFlag := true, publicActions := [], mediaType := "image" },
        dbGetCollection := fun _ => .error (.status .unavailable),
        dbGetItemMetadata := fun _ _ => .ok "doc",
        dbGetCache := fun _ _ _ _ => .error (.status .notFound),
        actGetParams := fun _ _ => .error (.status .unavailable),
        actAction := fun _ _ _ _ => .ok none,
        verifyToken := fun _ _ _ => .error "bad" }
      [] "coll" "sig" "thumb" "/200x200" "").1 = .ok () :=
  C7_public_item_always_allowed _ [] "coll" "sig" "thumb" "/200x200" ""
    { publicFlag := true, publicActions := [], mediaType := "image" } rfl rfl

/-- C3: for every request that reaches token verification and whose token's
signature verifies (yielding a subject), access is allowed if and only if
the subject equals, after trimming leading/trailing `/`, the composed
string collection/signature/action/rawParams; on mismatch the request is
denied with a subject-mismatch reason. -/
theorem C3_jwt_subject_binding (env : Env) (algs : List String)
    (collection signature act paramStr token : String)
    (item : Item) (coll : Collection) (subject : String)
    (hload : loadItem env collection signature = .ok item)
    (hfall : fallsThroughToToken env item act paramStr)
    (htok : token ≠ "")
    (hcoll : loadCollection env collection = .ok coll)
    (hkey : coll.jwtkey ≠ "")
    (hverify : env.verifyToken token coll.jwtkey algs = .ok subject) :
    ((checkAccess env algs collection signature act paramStr token).1 = .ok ()
      ↔ subject = composedSubject collection signature act paramStr)
    ∧ (subject ≠ composedSubject collection signature act paramStr →
        (checkAccess env algs collection signature act paramStr token).1 =
          .error (.subjectMismatch subject
            (composedSubject collection signature act paramStr))) := by
  rw [checkAccess_eq_tokenStage env algs collection signature act paramStr token item
    hload hfall]
  exact tokenStage_subject_binding env algs collection signature act paramStr token _
    coll subject htok hcoll hkey hverify

/-- Witness for C3: a verified token with subject `coll/sig/thumb` for the
request `coll/sig/thumb` (empty params) is allowed, and the mismatch clause
is instantiated. -/
theorem C3_jwt_subject_binding_witness :
    (((checkAccess envSubjectToken [] "coll" "sig" "thumb" "" "tok").1 = .ok ()
      ↔ "coll/sig/thumb" = composedSubject "coll" "sig" "thumb" "")
    ∧ ("coll/sig/thumb" ≠ composedSubject "coll" "sig" "thumb" "" →
        (checkAccess envSubjectToken [] "coll" "sig" "thumb" "" "tok").1 =
          .error (.subjectMismatch "coll/sig/thumb"
            (composedSubject "coll" "sig" "thumb" "")))) :=
  C3_jwt_subject_binding envSubjectToken [] "coll" "sig" "thumb" "" "tok"
    restrictedItem demoColl "coll/sig/thumb" rfl ⟨rfl, Or.inl rfl⟩ (by decide) rfl
    (by decide) rfl

/-- C6: for a non-public item with a non-empty public-action list and the
allow-list fetched, tokenless access is allowed iff
`action ++ "/" ++ canonicalParams` matches a public-action entry
exactly. -/
theorem C6_public_action_exact_match (env : Env) (algs : List String)
    (collection signature act paramStr : String) (item : Item) (allowed : List String)
    (hload : loadItem env collection signature = .ok item)
    (hpub : item.publicFlag = false)
    (hne : item.publicActions ≠ [])
    (hgp : env.actGetParams item.mediaType act = .ok allowed) :
    (checkAccess env algs collection signature act paramStr "").1 = .ok ()
      ↔ (act ++ "/" ++ canonicalParams paramStr allowed) ∈ item.publicActions := by
  unfold checkAccess
  rw [hload]
  have hlen : item.publicActions.length > 0 := List.length_pos.mpr hne
  simp only [hpub, Bool.false_eq_true, if_false, hlen, if_true, hgp]
  by_cases hmem : (act ++ "/" ++ canonicalParams paramStr allowed) ∈ item.publicActions
  · simp [hmem]
  · simp only [hmem, if_false, ite_false]
    unfold tokenStage
    simp [hmem]

/-- Witness for C6: the entry `thumb/200x200` authorizes tokenless
`thumb` with params `200x200` and not with params `300x300`. -/
theorem C6_public_action_exact_match_witness :
    ((checkAccess envThumb [] "coll" "sig" "thumb" "/200x200" "").1 = .ok ())
    ∧ ((checkAccess envThumb [] "coll" "sig" "thumb" "/300x300" "").1 ≠ .ok ()) := by
  constructor
  · exact (C6_public_action_exact_match envThumb [] "coll" "sig" "thumb" "/200x200"
      thumbItem ["size"] rfl rfl (by decide) rfl).mpr (by decide)
  · intro h
    exact absurd ((C6_public_action_exact_match envThumb [] "coll" "sig" "thumb" "/300x300"
      thumbItem ["size"] rfl rfl (by decide) rfl).mp h) (by decide)

/-- C2 counterexample: when the access evaluator's collection fetch fails
with `Unavailable` (a backend failure, not a not-found), the response
status is 401, not the 500 the claim states. -/
theorem C2_counterexample_backend_failure_gives_401 :
    (actionHandler envCollUnavailable [] "coll" "sig" "thumb" "/200x200" "tok").1.status = 401
    ∧ (actionHandler envCollUnavailable [] "coll" "sig" "thumb" "/200x200" "tok").1.status
        ≠ 500 := by
  exact ⟨rfl, by decide⟩

/-- C2 amended: a downstream-call failure inside the authorization
evaluator (collection fetch or allow-list fetch) is surfaced as HTTP 401
like every other `checkAccess` failure, not as 500. -/
theorem C2_amended_authz_backend_failure_is_401 (env : Env) (algs : List String)
    (collection signature act paramStr token : String) (item : Item) (e : GErr)
    (hload : loadItem env collection signature = .ok item)
    (hfail :
      (checkAccess env algs collection signature act paramStr token).1 =
          .error (.collectionFetch e)
        ∨ (checkAccess env algs collection signature act paramStr token).1 =
          .error (.paramsFetch e)) :
    (actionHandler env algs collection signature act paramStr token).1.status = 401 := by
  unfold actionHandler
  rw [hload]
  dsimp only []
  rcases hfail with h | h <;> rw [h]

/-- Witness for the amended C2 at the concrete `Unavailable` collection
fetch. -/
theorem C2_amended_authz_backend_failure_is_401_witness :
    (actionHandler envCollUnavailable [] "coll" "sig" "thumb" "/200x200" "tok").1.status
      = 401 :=
  C2_amended_authz_backend_failure_is_401 envCollUnavailable [] "coll" "sig" "thumb"
    "/200x200" "tok" restrictedItem (.status .unavailable) rfl (Or.inl rfl)

/-- C1 (code bug): the dispatcher's status mapping for a failed item lookup
(web.go lines 276-280) is inverted.  A non-NotFound backend failure
(`Unavailable`) yields 404, not the 500 the spec states; an upstream
NotFound also yields 404 (only because the cache loader converts it to the
non-status `KeyNotFoundError`); and the mapping function itself sends a
NotFound status error to 500 and everything else to 404 — the exact
opposite of the spec and of the analogous metadata branch (lines
300-314). -/
theorem C1_item_failure_status_inverted :
    (actionHandler envItemUnavailable [] "coll" "sig" "item" "" "").1.status = 404
    ∧ (actionHandler envItemUnavailable [] "coll" "sig" "item" "" "").1.body =
        .errorJson "cannot get item coll/sig"
    ∧ (actionHandler envItemNotFound [] "coll" "sig" "item" "" "").1.status = 404
    ∧ itemErrHttpStatus (.status .notFound) = 500
    ∧ itemErrHttpStatus (.status .unavailable) = 404
    ∧ itemErrHttpStatus keyNotFoundErr = 404 :=
  ⟨rfl, rfl, rfl, rfl, rfl, rfl⟩

/-- C4: a not-found signal from the upstream metadata service is stored as
a negative cache entry with the same TTL — a second lookup of the same key
before expiry returns not-found without invoking the upstream loader — and
any other upstream error is not cached and is returned to the caller. -/
theorem C4_notfound_negative_caching {α : Type} (st : NegCache α)
    (upstream : String → Except GErr α) (k : String) (now ttl : Nat)
    (hmiss : st.lookup k now = none) :
    (upstream k = .error (.status .notFound) →
      cacheGet st upstream k now ttl =
        (.error keyNotFoundErr, ⟨(k, none, now + ttl) :: st.entries⟩, true)
      ∧ ∀ now', now' < now + ttl →
          cacheGet ⟨(k, none, now + ttl) :: st.entries⟩ upstream k now' ttl =
            (.error keyNotFoundErr, ⟨(k, none, now + ttl) :: st.entries⟩, false))
    ∧ (∀ e, e ≠ .status .notFound → upstream k = .error e →
        cacheGet st upstream k now ttl = (.error e, st, true)) := by
  constructor
  · intro hup
    constructor
    · unfold cacheGet
      rw [hmiss, hup]
    · intro now' hlt
      have hpred : (((k, (none : Option α), now + ttl)).1 == k
          && decide (now' < ((k, (none : Option α), now + ttl)).2.2)) = true := by
        simp [hlt]
      unfold cacheGet NegCache.lookup
      dsimp only []
      rw [List.find?_cons_of_pos]
      exact hpred
  · intro e hne hup
    unfold cacheGet
    rw [hmiss, hup]
    rcases e with c | msg
    · cases c
      · exact absurd rfl hne
      · rfl
      · rfl
      · rfl
    · rfl

/-- Witness for C4: an empty `Nat`-valued cache, upstream NotFound cached
negatively at TTL 10, hit again at time 5 without an upstream call, and an
`Unavailable` upstream error left uncached. -/
theorem C4_notfound_negative_caching_witness :
    cacheGet (⟨[]⟩ : NegCache Nat) (fun _ => .error (.status .notFound)) "k" 0 10 =
      (.error keyNotFoundErr, ⟨[("k", none, 10)]⟩, true)
    ∧ cacheGet (⟨[("k", none, 10)]⟩ : NegCache Nat)
        (fun _ => .error (.status .notFound)) "k" 5 10 =
      (.error keyNotFoundErr, ⟨[("k", none, 10)]⟩, false)
    ∧ cacheGet (⟨[]⟩ : NegCache Nat) (fun _ => .error (.status .unavailable)) "k" 0 10 =
      (.error (.status .unavailable), ⟨[]⟩, true) := by
  refine ⟨?_, ?_, ?_⟩
  · exact ((C4_notfound_negative_caching ⟨[]⟩ (fun _ => .error (.status .notFound))
      "k" 0 10 rfl).1 rfl).1
  · exact ((C4_notfound_negative_caching ⟨[]⟩ (fun _ => .error (.status .notFound))
      "k" 0 10 rfl).1 rfl).2 5 (by decide)
  · exact (C4_notfound_negative_caching ⟨[]⟩ (fun _ => .error (.status .unavailable))
      "k" 0 10 rfl).2 (.status .unavailable) (by decide) rfl

/-- An authorized non-metadata request reduces to the rendering stage, with
the trace decomposing into the item load, the access-evaluator trace, and
the rendering-stage trace. -/
theorem actionHandler_authorized_render (env : Env) (algs : List String)
    (collection signature act paramStr token : String) (item : Item)
    (hload : loadItem env collection signature = .ok item)
    (hacc : (checkAccess env algs collection signature act paramStr token).1 = .ok ())
    (hact : act ≠ "metadata") :
    actionHandler env algs collection signature act paramStr token =
      ((renderStage env item collection signature act paramStr).1,
       Call.cacheLoadItem collection signature ::
         ((checkAccess env algs collection signature act paramStr token).2 ++
          (renderStage env item collection signature act paramStr).2)) := by
  unfold actionHandler
  rw [hload]
  dsimp only []
  rw [hacc]
  dsimp only []
  rw [if_neg hact]
  rfl

/-- When the action is `item` or `master`, the rendering stage records no
parameter handling at all. -/
theorem renderStage_trace_no_params_bool (env : Env) (item : Item)
    (collection signature act paramStr : String)
    (hact : act = "item" ∨ act = "master") :
    ((renderStage env item collection signature act paramStr).2.all
      (fun c => !c.isParamsHandling)) = true := by
  have hps : paramsStage env item act paramStr = (.ok "", []) := by
    unfold paramsStage
    rw [if_pos hact]
  unfold renderStage
  rw [hps]
  repeat'
    first
    | rfl
    | dsimp only []
    | split

/-- Counting positives is zero on a list whose members all satisfy a
classifier that excludes the counted predicate. -/
theorem countP_zero_of_all (l : List Call) (p q : Call → Bool)
    (hall : l.all q = true) (himp : ∀ c, q c = true → p c = false) :
    l.countP p = 0 := by
  rw [List.countP_eq_zero]
  intro a ha
  have hq := (List.all_eq_true.mp hall) a ha
  simp [himp a hq]

/-- C5 counterexample: for a request with action `item` on a non-public
item whose public-action list contains `item/`, the pipeline does fetch the
parameter allow-list and does build a params object (inside the access
evaluator), while still serving the request. -/
theorem C5_counterexample_access_stage_handles_params :
    Call.registryGetParams "image" "item" ∈
      (actionHandler envPublicItemAction [] "coll" "sig" "item" "" "").2
    ∧ Call.paramsBuilt "" ["size"] ∈
      (actionHandler envPublicItemAction [] "coll" "sig" "item" "" "").2
    ∧ (actionHandler envPublicItemAction [] "coll" "sig" "item" "" "").1.status = 200 := by
  refine ⟨by decide, by decide, rfl⟩

/-- C5 amended: for every authorized request with action `item` or
`master`, the rendering stage bypasses parameter handling entirely — after
the access check, no allow-list is fetched and no params object is built;
only the access evaluator may have done so. -/
theorem C5_amended_render_stage_bypasses_params (env : Env) (algs : List String)
    (collection signature act paramStr token : String) (item : Item)
    (hact : act = "item" ∨ act = "master")
    (hload : loadItem env collection signature = .ok item)
    (hacc : (checkAccess env algs collection signature act paramStr token).1 = .ok ()) :
    (actionHandler env algs collection signature act paramStr token).2 =
      Call.cacheLoadItem collection signature ::
        ((checkAccess env algs collection signature act paramStr token).2 ++
         (renderStage env item collection signature act paramStr).2)
    ∧ ∀ call ∈ (renderStage env item collection signature act paramStr).2,
        call.isParamsHandling = false := by
  have hmeta : act ≠ "metadata" := by
    rcases hact with h | h <;> (subst h ; decide)
  constructor
  · rw [actionHandler_authorized_render env algs collection signature act paramStr token
      item hload hacc hmeta]
  · intro call hmem
    have hall := renderStage_trace_no_params_bool env item collection signature act
      paramStr hact
    have := (List.all_eq_true.mp hall) call hmem
    simpa using this

/-- Witness for the amended C5: the `item/` public-action scenario, where
the rendering trace after the access check is free of parameter
handling. -/
theorem C5_amended_render_stage_bypasses_params_witness :
    ((actionHandler envPublicItemAction [] "coll" "sig" "item" "" "").2 =
      Call.cacheLoadItem "coll" "sig" ::
        ((checkAccess envPublicItemAction [] "coll" "sig" "item" "" "").2 ++
         (renderStage envPublicItemAction bareItemActionItem "coll" "sig" "item" "").2)
    ∧ ∀ call ∈ (renderStage envPublicItemAction bareItemActionItem "coll" "sig" "item" "").2,
        call.isParamsHandling = false) :=
  C5_amended_render_stage_bypasses_params envPublicItemAction [] "coll" "sig" "item" "" ""
    bareItemActionItem (Or.inl rfl) rfl rfl

/-- The params step only ever records access-stage (registry/params)
calls. -/
theorem paramsStage_trace_accessStage (env : Env) (item : Item) (act paramStr : String) :
    ((paramsStage env item act paramStr).2.all Call.isAccessStage) = true := by
  unfold paramsStage
  repeat'
    first
    | rfl
    | dsimp only []
    | split

/-- The rendering stage on a rendition-cache miss: the trace is the params
trace followed by exactly one cache lookup, one direct collection fetch and
one generation call carrying the collection's storage reference; a
generated rendition is served through the same path resolution as a cache
hit; a nil generation result is a 500 backend error. -/
theorem renderStage_miss (env : Env) (item : Item)
    (collection signature act paramStr pstr : String) (tp : List Call) (coll : Collection)
    (hparams : paramsStage env item act paramStr = (.ok pstr, tp))
    (hcache : env.dbGetCache collection signature act pstr = .error (.status .notFound))
    (hcoll : env.dbGetCollection collection = .ok coll) :
    ((renderStage env item collection signature act paramStr).2 =
      tp ++ [Call.dbGetCache collection signature act pstr,
             Call.dbGetCollection collection,
             Call.genAction item act pstr coll.storage])
    ∧ (∀ rend, env.actAction item act pstr coll.storage = .ok (some rend) →
        (renderStage env item collection signature act paramStr).1 =
          serveRendition rend collection signature act pstr)
    ∧ (env.actAction item act pstr coll.storage = .ok none →
        (renderStage env item collection signature act paramStr).1.status = 500
        ∧ ∃ msg, (renderStage env item collection signature act paramStr).1.body =
            .errorJson msg) := by
  unfold renderStage
  rw [hparams]
  dsimp only []
  rw [hcache]
  dsimp only []
  split
  · rename_i h
    exact absurd h (by decide)
  · rw [hcoll]
    dsimp only []
    rcases hgen : env.actAction item act pstr coll.storage with e | o
    · refine ⟨by simp [List.append_assoc], ?_, ?_⟩
      · intro rend h
        cases h
      · intro h
        cases h
    · rcases o with _ | rend
      · refine ⟨by simp [List.append_assoc], ?_, ?_⟩
        · intro rend h
          injection h with h1
          cases h1
        · intro _
          exact ⟨rfl, ⟨_, rfl⟩⟩
      · refine ⟨by simp [List.append_assoc], ?_, ?_⟩
        · intro rend' h
          injection h with h1
          injection h1 with h2
          rw [h2]
        · intro h
          injection h with h1
          cases h1

/-- C8: on a rendition-cache NotFound for an authorized non-metadata
request, the generation service is invoked exactly once — with the item,
action, canonical params and the owning collection's storage reference —
there is no second rendition-cache lookup, the generated rendition serves
the response, and a nil result with no error is a 500 backend error. -/
theorem C8_generate_on_cache_miss (env : Env) (algs : List String)
    (collection signature act paramStr token : String) (item : Item)
    (pstr : String) (tp : List Call) (coll : Collection)
    (hload : loadItem env collection signature = .ok item)
    (hacc : (checkAccess env algs collection signature act paramStr token).1 = .ok ())
    (hact : act ≠ "metadata")
    (hparams : paramsStage env item act paramStr = (.ok pstr, tp))
    (hcache : env.dbGetCache collection signature act pstr = .error (.status .notFound))
    (hcoll : env.dbGetCollection collection = .ok coll) :
    ((actionHandler env algs collection signature act paramStr token).2.countP
        Call.isGenAction = 1
      ∧ Call.genAction item act pstr coll.storage ∈
          (actionHandler env algs collection signature act paramStr token).2
      ∧ (actionHandler env algs collection signature act paramStr token).2.countP
          Call.isGetCache = 1)
    ∧ (∀ rend, env.actAction item act pstr coll.storage = .ok (some rend) →
        (actionHandler env algs collection signature act paramStr token).1 =
          serveRendition rend collection signature act pstr)
    ∧ (env.actAction item act pstr coll.storage = .ok none →
        (actionHandler env algs collection signature act paramStr token).1.status = 500
        ∧ ∃ msg, (actionHandler env algs collection signature act paramStr token).1.body =
            .errorJson msg) := by
  have hred := actionHandler_authorized_render env algs collection signature act paramStr
    token item hload hacc hact
  obtain ⟨htrace, hserve, hnil⟩ := renderStage_miss env item collection signature act
    paramStr pstr tp coll hparams hcache hcoll
  have haccall := checkAccess_trace_accessStage env algs collection signature act
    paramStr token
  have htpall : tp.all Call.isAccessStage = true := by
    have h := paramsStage_trace_accessStage env item act paramStr
    rw [hparams] at h
    exact h
  have hgenz : (checkAccess env algs collection signature act paramStr token).2.countP
      Call.isGenAction = 0 := by
    refine countP_zero_of_all _ _ _ haccall ?_
    intro c hc
    cases c <;> simp_all [Call.isAccessStage, Call.isGenAction]
  have hgetz : (checkAccess env algs collection signature act paramStr token).2.countP
      Call.isGetCache = 0 := by
    refine countP_zero_of_all _ _ _ haccall ?_
    intro c hc
    cases c <;> simp_all [Call.isAccessStage, Call.isGetCache]
  have htpgenz : tp.countP Call.isGenAction = 0 := by
    refine countP_zero_of_all _ _ _ htpall ?_
    intro c hc
    cases c <;> simp_all [Call.isAccessStage, Call.isGenAction]
  have htpgetz : tp.countP Call.isGetCache = 0 := by
    refine countP_zero_of_all _ _ _ htpall ?_
    intro c hc
    cases c <;> simp_all [Call.isAccessStage, Call.isGetCache]
  refine ⟨⟨?_, ?_, ?_⟩, ?_, ?_⟩
  · rw [hred]
    simp [List.countP_cons, List.countP_append, htrace, hgenz, htpgenz,
      Call.isGenAction]
  · rw [hred]
    simp [htrace]
  · rw [hred]
    simp [List.countP_cons, List.countP_append, htrace, hgetz, htpgetz,
      Call.isGetCache]
  · intro rend h
    rw [hred]
    exact hserve rend h
  · intro h
    rw [hred]
    exact hnil h

/-- Witness for C8: a public item, a NotFound rendition cache, and the
generation service producing `gen.jpg`: one generation call with the
collection's storage, one cache lookup, and the generated rendition is
served. -/
theorem C8_generate_on_cache_miss_witness :
    ((actionHandler envGenMiss [] "coll" "sig" "thumb" "/200x200" "").2.countP
        Call.isGenAction = 1
      ∧ Call.genAction publicItem "thumb" "200x200" demoColl.storage ∈
          (actionHandler envGenMiss [] "coll" "sig" "thumb" "/200x200" "").2
      ∧ (actionHandler envGenMiss [] "coll" "sig" "thumb" "/200x200" "").2.countP
          Call.isGetCache = 1)
    ∧ (actionHandler envGenMiss [] "coll" "sig" "thumb" "/200x200" "").1 =
        serveRendition
          { path := "gen.jpg", mimeType := "image/jpeg",
            storage := some { filebase := "/data" } }
          "coll" "sig" "thumb" "200x200" := by
  have h := C8_generate_on_cache_miss envGenMiss [] "coll" "sig" "thumb" "/200x200" ""
    publicItem "200x200"
    [.registryGetParams "image" "thumb", .paramsBuilt "/200x200" ["size"]]
    demoColl rfl rfl (by decide) rfl rfl rfl
  exact ⟨h.1, h.2.1 _ rfl⟩

/-- C9: the response for a cache hit is produced by the path-resolution
rule: an absolute-locator path (scheme prefix) is served as-is, a relative
path is served as the storage target's base plus `/` plus the path, and a
relative path without a storage target is a 500 backend error. -/
theorem C9_storage_path_resolution (env : Env) (algs : List String)
    (collection signature act paramStr token : String) (item : Item)
    (pstr : String) (tp : List Call) (rend : Rendition)
    (hload : loadItem env collection signature = .ok item)
    (hacc : (checkAccess env algs collection signature act paramStr token).1 = .ok ())
    (hact : act ≠ "metadata")
    (hparams : paramsStage env item act paramStr = (.ok pstr, tp))
    (hcache : env.dbGetCache collection signature act pstr = .ok rend) :
    ((actionHandler env algs collection signature act paramStr token).1 =
      serveRendition rend collection signature act pstr)
    ∧ (isUrlMatch rend.path = true →
        serveRendition rend collection signature act pstr =
          { status := 200, body := .file rend.mimeType rend.path })
    ∧ (isUrlMatch rend.path = false → ∀ stor, rend.storage = some stor →
        serveRendition rend collection signature act pstr =
          { status := 200,
            body := .file rend.mimeType (stor.filebase ++ "/" ++ rend.path) })
    ∧ (isUrlMatch rend.path = false → rend.storage = none →
        (serveRendition rend collection signature act pstr).status = 500
        ∧ ∃ msg, (serveRendition rend collection signature act pstr).body =
            .errorJson msg) := by
  refine ⟨?_, ?_, ?_, ?_⟩
  · rw [actionHandler_authorized_render env algs collection signature act paramStr token
      item hload hacc hact]
    dsimp only []
    unfold renderStage
    rw [hparams]
    dsimp only []
    rw [hcache]
  · intro hurl
    unfold serveRendition
    rw [if_pos hurl]
  · intro hurl stor hstor
    have hn : ¬(isUrlMatch rend.path = true) := by
      simp [hurl]
    unfold serveRendition
    rw [if_neg hn, hstor]
  · intro hurl hstor
    have hn : ¬(isUrlMatch rend.path = true) := by
      simp [hurl]
    unfold serveRendition
    rw [if_neg hn, hstor]
    exact ⟨rfl, ⟨_, rfl⟩⟩

/-- Witness for C9: the relative rendition `p.jpg` is served from
`/data/p.jpg`, and the absolute rendition `https://cdn/x.jpg` is served
as-is. -/
theorem C9_storage_path_resolution_witness :
    ((actionHandler envPublic [] "coll" "sig" "thumb" "/200x200" "").1 =
      serveRendition rendRel "coll" "sig" "thumb" "200x200"
    ∧ serveRendition rendRel "coll" "sig" "thumb" "200x200" =
      { status := 200, body := .file "image/jpeg" "/data/p.jpg" })
    ∧ ((actionHandler envPublicAbs [] "coll" "sig" "thumb" "/200x200" "").1 =
      serveRendition rendAbs "coll" "sig" "thumb" "200x200"
    ∧ serveRendition rendAbs "coll" "sig" "thumb" "200x200" =
      { status := 200, body := .file "image/jpeg" "https://cdn/x.jpg" }) := by
  have hrel := C9_storage_path_resolution envPublic [] "coll" "sig" "thumb" "/200x200" ""
    publicItem "200x200"
    [.registryGetParams "image" "thumb", .paramsBuilt "/200x200" ["size"]]
    rendRel rfl rfl (by decide) rfl rfl
  have habs := C9_storage_path_resolution envPublicAbs [] "coll" "sig" "thumb" "/200x200" ""
    publicItem "200x200"
    [.registryGetParams "image" "thumb", .paramsBuilt "/200x200" ["size"]]
    rendAbs rfl rfl (by decide) rfl rfl
  exact ⟨⟨hrel.1, hrel.2.2.1 (by decide) _ rfl⟩, ⟨habs.1, habs.2.1 (by decide)⟩⟩

/-- C10: for action `metadata` the access evaluator gates the metadata
fetch: a denial yields 401 and the metadata service is never invoked; the
raw document is returned with 200 only when the evaluator allows. -/
theorem C10_metadata_authz_gate (env : Env) (algs : List String)
    (collection signature paramStr token : String) (item : Item)
    (hload : loadItem env collection signature = .ok item) :
    ((∃ r, (checkAccess env algs collection signature "metadata" paramStr token).1 =
        .error r) →
      (actionHandler env algs collection signature "metadata" paramStr token).1.status = 401
      ∧ (actionHandler env algs collection signature "metadata" paramStr token).2.countP
          Call.isMetadataFetch = 0)
    ∧ ((checkAccess env algs collection signature "metadata" paramStr token).1 = .ok () →
        ∀ v, env.dbGetItemMetadata collection signature = .ok v →
          (actionHandler env algs collection signature "metadata" paramStr token).1 =
            { status := 200, body := .jsonData v }) := by
  constructor
  · rintro ⟨r, hden⟩
    have hz : (checkAccess env algs collection signature "metadata" paramStr
        token).2.countP Call.isMetadataFetch = 0 := by
      refine countP_zero_of_all _ _ _
        (checkAccess_trace_accessStage env algs collection signature "metadata" paramStr
          token) ?_
      intro c hc
      cases c <;> simp_all [Call.isAccessStage, Call.isMetadataFetch]
    unfold actionHandler
    rw [hload]
    dsimp only []
    rw [hden]
    dsimp only []
    exact ⟨rfl, by simp [List.countP_cons, hz, Call.isMetadataFetch]⟩
  · intro hacc v hv
    unfold actionHandler
    rw [hload]
    dsimp only []
    rw [hacc]
    dsimp only []
    rw [if_pos rfl, hv]

/-- Witness for C10: a tokenless restricted item gets 401 with no metadata
fetch; a public item gets its raw document with 200. -/
theorem C10_metadata_authz_gate_witness :
    ((actionHandler baseEnv [] "coll" "sig" "metadata" "" "").1.status = 401
      ∧ (actionHandler baseEnv [] "coll" "sig" "metadata" "" "").2.countP
          Call.isMetadataFetch = 0)
    ∧ (actionHandler envPublic [] "coll" "sig" "metadata" "" "").1 =
        { status := 200, body := .jsonData "doc" } := by
  refine ⟨(C10_metadata_authz_gate baseEnv [] "coll" "sig" "" "" restrictedItem rfl).1
    ⟨.noToken, rfl⟩, ?_⟩
  exact (C10_metadata_authz_gate envPublic [] "coll" "sig" "" "" publicItem rfl).2 rfl
    "doc" rfl

end Mediaserver
